import Mathlib

/-!
Verification of `src/jobname_app/main.py`, a minimal Flask service.

The service loads a JSON mapping once at module import time
(`LABELS_BY_INPUT = json.load(open("labels_by_input.json"))`, line 5) and
serves two GET endpoints:

* `/` (lines 7-9): always answers 200 with a fixed liveness message;
* `/predict/` (lines 11-17): reads the query parameter `input`
  (`request.args.get("input")`, which yields Python `None` when the
  parameter is omitted), tests `user_input in LABELS_BY_INPUT`, and on a
  hit answers 200 with `{"labels": LABELS_BY_INPUT[user_input]["Label"]}`,
  otherwise 404 with `{"message": "No recommendations for user input"}`.

The embedding below models JSON values, the loaded table as the
association list underlying the Python dict (string keys, as produced by
`json.load` on a JSON object), the two view functions as pure functions
returning either a response or the Python exception the handler raises,
and the module-level load as a function of the outcome of
`open` + `json.load`.  HTTP/URL decoding is handled by Flask outside this
repository, so requests are modelled at the level Flask hands them to the
view functions: the decoded value of the `input` parameter, or `none`
when it is absent.
-/

/-- JSON values as produced by `json.load`.  Numbers are embedded as
integers: no datum in the specification or the code involves a
non-integral number, and the embedding never computes with numbers. -/
inductive JValue where
  | null
  | bool (b : Bool)
  | num (n : Int)
  | str (s : String)
  | arr (elems : List JValue)
  | obj (fields : List (String × JValue))

/-- An HTTP response as produced by `return jsonify(body), status` in the
view functions: a status code and a JSON body. -/
structure Response where
  status : Nat
  body : JValue

/-- Request-time Python exceptions that the `predict` view function can
raise: `KeyError` from indexing a dict with an absent key, `TypeError`
from indexing a non-dict JSON value with a string. -/
inductive PyErr where
  | keyError
  | typeError

/-- Python dict lookup on the loaded table.  `json.load` builds a dict
whose keys are exactly the (unique) keys of the JSON object, so the dict
is modelled by its association list; lookup finds the entry whose key is
literally equal to the queried string. -/
def dictLookup (table : List (String × JValue)) (s : String) : Option JValue :=
  (table.find? fun p => p.1 == s).map Prod.snd

/-- The keys of the loaded table. -/
def tableKeys (table : List (String × JValue)) : List String :=
  table.map Prod.fst

/-- Python subscript `v[key]` with a string key on a JSON value, as used
by `LABELS_BY_INPUT[user_input]["Label"]` (line 15): on a dict it returns
the stored value or raises `KeyError`; on any other JSON value a string
subscript raises `TypeError`. -/
def subscript (v : JValue) (key : String) : Except PyErr JValue :=
  match v with
  | .obj fields =>
    match (fields.find? fun p => p.1 == key).map Prod.snd with
    | some w => .ok w
    | none => .error .keyError
  | _ => .error .typeError

/-- Body of the home response (line 9). -/
def homeBody : JValue :=
  .obj [("message", .str "JobName App is live")]

/-- The `home` view function (lines 7-9): `jsonify({"message": "JobName
App is live"}), 200`.  It does not read the table. -/
def home : Response :=
  ⟨200, homeBody⟩

/-- Body of the not-found response (line 17). -/
def missBody : JValue :=
  .obj [("message", .str "No recommendations for user input")]

/-- The `predict` view function (lines 11-17).  `request.args.get`
returns `none` when the `input` parameter is omitted; Python `None`
compares unequal to every string, hence to every key of the dict built
by `json.load`, so the membership test on line 14 is false in that case.
On a hit, line 15 indexes the stored record with the literal key
`"Label"`; the resulting value is returned untransformed under the
`"labels"` field. -/
def predict (table : List (String × JValue)) (userInput : Option String) :
    Except PyErr Response :=
  match userInput with
  | none => .ok ⟨404, missBody⟩
  | some s =>
    match dictLookup table s with
    | some record =>
      (subscript record "Label").map fun v => ⟨200, .obj [("labels", v)]⟩
    | none => .ok ⟨404, missBody⟩

/-- An incoming GET request, at the level Flask routes it to a view
function: either `/` or `/predict/` with the decoded `input` parameter
(`none` when omitted). -/
inductive Request where
  | homeReq
  | predictReq (input : Option String)

/-- Dispatch of a request to the matching view function. -/
def handle (table : List (String × JValue)) : Request → Except PyErr Response
  | .homeReq => .ok home
  | .predictReq u => predict table u

/-- Serving one request with the module state threaded explicitly.  The
view functions contain no assignment to `LABELS_BY_INPUT` and call no
mutating method on it (lines 7-17), so the table component is returned
unchanged. -/
def step (table : List (String × JValue)) (r : Request) :
    Except PyErr Response × List (String × JValue) :=
  (handle table r, table)

/-- Serving a sequence of requests, threading the module state. -/
def serveAll (table : List (String × JValue)) :
    List Request → List (Except PyErr Response) × List (String × JValue)
  | [] => ([], table)
  | r :: rs =>
    let x := step table r
    let y := serveAll x.2 rs
    (x.1 :: y.1, y.2)

/-- Ways `open("labels_by_input.json")` or `json.load` can raise at
module import time: missing file, unreadable file, or input that is not
syntactically valid JSON. -/
inductive LoadError where
  | fileNotFound
  | readFailure
  | jsonDecodeFailure

/-- The state of a started server process: the value bound to the module
global `LABELS_BY_INPUT`. -/
structure ServerState where
  labelsByInput : JValue

/-- Module-level initialisation (line 5):
`LABELS_BY_INPUT = json.load(open("labels_by_input.json"))`.  The
argument is the outcome of `open` + `json.load`; an exception there
aborts the module import, so `app.run` (line 20) is never reached and no
server state exists.  When `json.load` succeeds, the parsed value is
bound as is: `json.load` performs no validation of the shape of the
value beyond JSON syntax. -/
def startup (loaded : Except LoadError JValue) : Except LoadError ServerState :=
  loaded.map ServerState.mk

/-- The concrete table of the worked scenario in the specification:
`{"red shoes": {"Label": ["footwear", "red"]}}`. -/
def demoTable : List (String × JValue) :=
  [("red shoes", .obj [("Label", .arr [.str "footwear", .str "red"])])]

/-- A table whose single record is an object without a `"Label"` field:
syntactically valid JSON (`{"k": {}}`) that is not a mapping to records
carrying a label. -/
def labellessTable : List (String × JValue) :=
  [("k", .obj [])]

/-- A table containing the empty string as a key. -/
def emptyKeyTable : List (String × JValue) :=
  [("", .obj [("Label", .str "x")])]

/-- Whether a record is a JSON object carrying a `"Label"` field. -/
def hasLabelField : JValue → Bool
  | .obj fields => (fields.find? fun p => p.1 == "Label").isSome
  | _ => false

/-- The HTTP status of a handler outcome, or `none` when the handler
raised instead of returning a response. -/
def statusOf : Except PyErr Response → Option Nat
  | .ok resp => some resp.status
  | .error _ => none

/-- Dict lookup misses exactly on the strings that are not keys. -/
lemma dictLookup_eq_none_iff (t : List (String × JValue)) (s : String) :
    dictLookup t s = none ↔ s ∉ tableKeys t := by
  unfold dictLookup tableKeys
  rw [Option.map_eq_none', List.find?_eq_none]
  simp only [List.mem_map, beq_iff_eq, not_exists]
  aesop

/-- A successful dict lookup returns the value of an entry of the table
whose key is literally the queried string. -/
lemma dictLookup_some_mem (t : List (String × JValue)) (s : String) (r : JValue)
    (h : dictLookup t s = some r) :
    ∃ p ∈ t, p.1 = s ∧ p.2 = r := by
  unfold dictLookup at h
  rcases Option.map_eq_some'.mp h with ⟨p, hp, hr⟩
  have hmem := List.mem_of_find?_eq_some hp
  have hkey := List.find?_some hp
  exact ⟨p, hmem, beq_iff_eq.mp hkey, hr⟩

/-- A record carrying a `"Label"` field yields some value under the
`"Label"` subscript. -/
lemma subscript_label_of_hasLabelField (r : JValue) (h : hasLabelField r = true) :
    ∃ v, subscript r "Label" = .ok v := by
  cases r with
  | obj fields =>
    rcases ho : fields.find? fun p => p.1 == "Label" with _ | p
    · simp [hasLabelField, ho] at h
    · exact ⟨p.2, by simp [subscript, ho]⟩
  | null => simp [hasLabelField] at h
  | bool b => simp [hasLabelField] at h
  | num n => simp [hasLabelField] at h
  | str s => simp [hasLabelField] at h
  | arr elems => simp [hasLabelField] at h

/-- Claim C1: for every key `k` present in the lookup table, the predict
endpoint queried with `k` returns HTTP 200 with JSON body
`{"labels": v}` where `v` is exactly the `"Label"` value stored in the
record for `k`, with no transformation of the value. -/
theorem predict_hit_returns_stored_label (t : List (String × JValue))
    (k : String) (r v : JValue)
    (hk : dictLookup t k = some r) (hv : subscript r "Label" = .ok v) :
    predict t (some k) = .ok ⟨200, .obj [("labels", v)]⟩ := by
  simp [predict, hk, hv, Except.map]

/-- Witness for claim C1 on the concrete demo table. -/
theorem predict_hit_returns_stored_label_witness :
    predict demoTable (some "red shoes") =
      .ok ⟨200, .obj [("labels", .arr [.str "footwear", .str "red"])]⟩ :=
  predict_hit_returns_stored_label demoTable "red shoes"
    (.obj [("Label", .arr [.str "footwear", .str "red"])])
    (.arr [.str "footwear", .str "red"]) rfl rfl

/-- Claim C2: every string that is not a key of the table yields HTTP 404
with body exactly `{"message": "No recommendations for user input"}`, and
an omitted `input` parameter yields the identical response, not a
distinct error. -/
theorem predict_miss_returns_404 :
    (∀ (t : List (String × JValue)) (s : String), s ∉ tableKeys t →
        predict t (some s) = .ok ⟨404, missBody⟩) ∧
    (∀ t : List (String × JValue), predict t none = .ok ⟨404, missBody⟩) := by
  refine ⟨fun t s hs => ?_, fun t => rfl⟩
  have h := (dictLookup_eq_none_iff t s).mpr hs
  simp [predict, h]

/-- Witness for claim C2 on the concrete demo table. -/
theorem predict_miss_returns_404_witness :
    predict demoTable (some "blue shoes") = .ok ⟨404, missBody⟩ :=
  predict_miss_returns_404.1 demoTable "blue shoes" (by decide)

/-- Claim C3, counterexample: `{"k": {}}` is syntactically valid JSON but
not a mapping to records with a label field, yet `json.load` accepts it,
the module import succeeds, the server starts and serves requests; the
defect surfaces only at request time as a `KeyError`. -/
theorem startup_accepts_labelless_table :
    startup (.ok (.obj labellessTable)) = .ok ⟨.obj labellessTable⟩ ∧
    handle labellessTable .homeReq = .ok ⟨200, homeBody⟩ ∧
    predict labellessTable (some "k") = .error .keyError :=
  ⟨rfl, rfl, rfl⟩

/-- Claim C3, amended: the process fails fast at startup exactly when
`open` or `json.load` raises (missing or unreadable file, or input that
is not syntactically valid JSON); any syntactically valid JSON value is
bound as the table without shape validation and the server starts. -/
theorem startup_fails_only_on_load_error :
    (∀ e : LoadError, startup (.error e) = .error e) ∧
    (∀ v : JValue, startup (.ok v) = .ok ⟨v⟩) :=
  ⟨fun _ => rfl, fun _ => rfl⟩

/-- Claim C4: the lookup is exact-string and case-sensitive; the predict
endpoint answers the not-found response exactly on the strings that are
not literally equal to a table key, and the hit branch is taken exactly
on the strings literally equal to a table key, with no normalisation. -/
theorem predict_exact_match_iff (t : List (String × JValue)) (s : String) :
    (predict t (some s) = .ok ⟨404, missBody⟩ ↔ s ∉ tableKeys t) ∧
    ((dictLookup t s).isSome = true ↔ s ∈ tableKeys t) := by
  constructor
  · constructor
    · intro hmiss
      rcases h : dictLookup t s with _ | r
      · exact (dictLookup_eq_none_iff t s).mp h
      · exfalso
        rcases hs : subscript r "Label" with e | v
        · simp [predict, h, hs, Except.map] at hmiss
        · simp [predict, h, hs, Except.map, Response.mk.injEq] at hmiss
    · intro hs
      have h := (dictLookup_eq_none_iff t s).mpr hs
      simp [predict, h]
  · constructor
    · intro h
      by_contra hs
      rw [(dictLookup_eq_none_iff t s).mpr hs] at h
      simp at h
    · intro hmem
      rcases ho : dictLookup t s with _ | r
      · exact absurd hmem ((dictLookup_eq_none_iff t s).mp ho)
      · rfl

/-- Witness for claim C4 on the concrete demo table. -/
theorem predict_exact_match_iff_witness :
    predict demoTable (some "blue shoes") = .ok ⟨404, missBody⟩ :=
  (predict_exact_match_iff demoTable "blue shoes").1.mpr (by decide)

/-- Claim C5: the home endpoint always returns HTTP 200 with body
`{"message": "JobName App is live"}`, for every state of the lookup
table, and leaves the table unchanged. -/
theorem home_always_live (t : List (String × JValue)) :
    handle t .homeReq = .ok ⟨200, .obj [("message", .str "JobName App is live")]⟩ ∧
    (step t .homeReq).2 = t :=
  ⟨rfl, rfl⟩

/-- Claim C6: the table is read-only; after serving any sequence of
requests the threaded table equals the table loaded at startup. -/
theorem table_read_only (t : List (String × JValue)) (rs : List Request) :
    (serveAll t rs).2 = t := by
  induction rs generalizing t with
  | nil => rfl
  | cons r rs ih => simp [serveAll, step, ih]

/-- Claim C7: repeated identical requests are idempotent; serving the
same request twice in a row yields the identical outcome both times. -/
theorem repeated_request_idempotent (t : List (String × JValue)) (r : Request) :
    (serveAll t [r, r]).1 = [handle t r, handle t r] :=
  rfl

/-- Claim C8: on the concrete table
`{"red shoes": {"Label": ["footwear", "red"]}}`, querying `red shoes`
answers 200 with `{"labels": ["footwear", "red"]}` and querying
`blue shoes` answers 404 with
`{"message": "No recommendations for user input"}`. -/
theorem demo_scenario :
    predict demoTable (some "red shoes") =
      .ok ⟨200, .obj [("labels", .arr [.str "footwear", .str "red"])]⟩ ∧
    predict demoTable (some "blue shoes") = .ok ⟨404, missBody⟩ :=
  ⟨rfl, rfl⟩

/-- Claim C9: the hit branch indexes the record with the literal key
`"Label"`.  When every record of the table carries a `"Label"` field,
every hit returns a response with status 200 and the access never
raises; a record lacking the field makes the handler raise a `KeyError`
instead of returning a response. -/
theorem hit_requires_label_field :
    (∀ t : List (String × JValue), (∀ p ∈ t, hasLabelField p.2 = true) →
      ∀ s : String, s ∈ tableKeys t →
        statusOf (predict t (some s)) = some 200) ∧
    predict labellessTable (some "k") = .error .keyError := by
  refine ⟨fun t ht s hs => ?_, rfl⟩
  rcases ho : dictLookup t s with _ | r
  · exact absurd hs ((dictLookup_eq_none_iff t s).mp ho)
  · rcases dictLookup_some_mem t s r ho with ⟨p, hp, _, hpr⟩
    rcases subscript_label_of_hasLabelField r (hpr ▸ ht p hp) with ⟨v, hv⟩
    simp [predict, ho, hv, Except.map, statusOf]

/-- Witness for claim C9 on the concrete demo table. -/
theorem hit_requires_label_field_witness :
    statusOf (predict demoTable (some "red shoes")) = some 200 :=
  hit_requires_label_field.1 demoTable (by decide) "red shoes" (by decide)

/-- Claim C10: when the table carries the empty string as a key, a
present-but-empty `input` parameter is an ordinary hit returning that
record's `"Label"` value with status 200, while an omitted parameter can
never match and always yields the not-found response. -/
theorem empty_string_key_hit_absent_param_miss :
    (∀ (t : List (String × JValue)) (r v : JValue),
      dictLookup t "" = some r → subscript r "Label" = .ok v →
        predict t (some "") = .ok ⟨200, .obj [("labels", v)]⟩) ∧
    (∀ t : List (String × JValue), predict t none = .ok ⟨404, missBody⟩) := by
  refine ⟨fun t r v hr hv => ?_, fun t => rfl⟩
  simp [predict, hr, hv, Except.map]

/-- Witness for claim C10 on a concrete table carrying the empty key. -/
theorem empty_string_key_hit_absent_param_miss_witness :
    predict emptyKeyTable (some "") = .ok ⟨200, .obj [("labels", .str "x")]⟩ :=
  empty_string_key_hit_absent_param_miss.1 emptyKeyTable
    (.obj [("Label", .str "x")]) (.str "x") rfl rfl
